import Mathlib

/-!
Shallow embedding of `danetls.c` (a diagnostic DANE/PKIX TLS client).

The program's externally observable control flow is embedded as pure Lean
functions.  Calls into external collaborators (the DNS resolver, the TLS
library, sockets, STARTTLS) are modelled as oracle fields of environment
records: each field records the result the external call would return, and
the embedding reproduces exactly the C control flow around those results.

Machine integers that matter here (`count_success`, `count_fail`,
`count_tlsa_usable`, return codes of `SSL_dane_tlsa_add` / `SSL_shutdown`)
are modelled as `Nat` / `Int`; no arithmetic in the program can overflow in
any realistic run (counters are bounded by address/record counts), so no
modular reduction is needed.
-/

/-- `enum AUTH_MODE` from `common.h` as used by `danetls.c`:
`MODE_BOTH` is the default (DANE with fallback to PKIX). -/
inductive AUTH_MODE
  | MODE_PKIX
  | MODE_DANE
  | MODE_BOTH
deriving DecidableEq, Repr, Fintype

/-- One TLSA rdata entry (`tlsa_rdata` list node in `query-ldns.h`):
usage, selector, matching type and the association data bytes. -/
structure tlsa_rdata where
  usage : Nat
  selector : Nat
  mtype : Nat
  data : List Nat
deriving DecidableEq, Repr

/-- The three run-total counters declared at the top of `main`
(`count_success`, `count_fail`, `count_tlsa_usable`, all initialised 0). -/
structure RunState where
  count_success : Nat
  count_fail : Nat
  count_tlsa_usable : Nat
deriving DecidableEq, Repr

/-- How one address attempt ended (which `continue`/fallthrough of the
per-address loop body of `main` was taken). -/
inductive Outcome
  | socketFail
  | connectFail
  | sslNewFail
  | daneEnableFail
  | set1HostFail
  | noUsableTlsa
  | starttlsFail
  | handshakeFail
  | verifyFail
  | verifyOk
deriving DecidableEq, Repr

/-- The policy state configured on one `SSL` handle by the session-binding
code (lines 388-415 of `danetls.c`): whether `SSL_dane_enable` was called,
the name given to `SSL_set1_host`, the SNI name (set implicitly by
`SSL_dane_enable`, explicitly by `SSL_set_tlsext_host_name`), and whether
`SSL_set_hostflags(ssl, X509_CHECK_FLAG_NO_PARTIAL_WILDCARDS)` was applied
(`strictWildcards`). -/
structure SSLSession where
  daneEnabled : Bool
  verifyHost : Option String
  sniName : Option String
  strictWildcards : Bool
deriving DecidableEq, Repr

/-- Trace record of one address iteration: its outcome, the `attempt_dane`
value that governed it, the session policy that was configured (when the
iteration got that far), whether `SSL_free`/`close` ran inside the TLSA-add
loop (the `rc < 0` branch), and how many `SSL_shutdown` calls the final
shutdown loop made (`none` when the loop was not reached, or when the
modelled result stream was exhausted while the library kept returning 0). -/
structure AttemptRecord where
  outcome : Outcome
  usedDane : Bool
  session : Option SSLSession
  freedDuringTlsaAdd : Bool
  shutdownCallCount : Option Nat
deriving DecidableEq, Repr

/-- Oracle results of the external calls made during one address iteration:
socket(2)/connect(2), `SSL_new`, `SSL_dane_enable`, `SSL_set1_host`, the
per-record return value of `SSL_dane_tlsa_add` (indexed by the record's
position; negative = error, 0 = unusable, positive = usable),
`do_starttls`, `SSL_connect`, `SSL_get_verify_result == X509_V_OK`, and the
stream of `SSL_shutdown` return values. -/
structure AddrEnv where
  socketOk : Bool
  connectOk : Bool
  sslNewOk : Bool
  daneEnableOk : Bool
  set1HostOk : Bool
  tlsaAddResult : Nat → Int
  starttlsOk : Bool
  sslConnectOk : Bool
  verifyOk : Bool
  shutdownResults : List Int

/-- Oracle results of the run-level external calls in `main`:
`get_resolver`, `get_tlsa` (the TLSA record set DNS would return), the
three global DNSSEC evidence flags set by `query-ldns` plus the
bogus/indeterminate flag, CA-store loading, `SSL_CTX_dane_enable`, and the
resolved address list (each address bundled with its per-attempt oracle). -/
structure RunEnv where
  resolverOk : Bool
  tlsaFromDns : List tlsa_rdata
  tlsa_authenticated : Bool
  v4_authenticated : Bool
  v6_authenticated : Bool
  dns_bogus_or_indeterminate : Bool
  caLoadOk : Bool
  ctxDaneEnableOk : Bool
  addresses : List AddrEnv

/-- Lines 261-285 of `danetls.c`: the bail-out on bogus/indeterminate DNS
followed by the `attempt_dane` decision.  Returns
`(attempt_dane, fatal)` where `fatal` means one of the `goto cleanup`
branches fired (bogus DNS, or a missing/insecure prerequisite under
`MODE_DANE`). -/
def dane_decision (auth_mode : AUTH_MODE)
    (tlsa_nonempty tlsa_authenticated v4_authenticated v6_authenticated
     dns_bogus_or_indeterminate : Bool) : Bool × Bool :=
  if dns_bogus_or_indeterminate then (false, true)
  else if auth_mode == .MODE_DANE || auth_mode == .MODE_BOTH then
    if !tlsa_nonempty then (false, auth_mode == .MODE_DANE)
    else if !tlsa_authenticated then (false, auth_mode == .MODE_DANE)
    else if !v4_authenticated || !v6_authenticated then
      (false, auth_mode == .MODE_DANE)
    else (true, false)
  else (false, false)

/-- Lines 424-443 of `danetls.c`: the loop adding each TLSA record to the
session with `SSL_dane_tlsa_add`.  State is
`(count_fail, count_tlsa_usable, freed)`.  NOTE the faithful modelling of
the `rc < 0` branch: after `SSL_free`/`close`/`count_fail++` the C
`continue` re-enters THIS record loop (not the outer address loop), so the
iteration keeps going over the remaining records with `freed = true`. -/
def tlsa_add_loop (addResult : Nat → Int) :
    Nat → List tlsa_rdata → Nat × Nat × Bool → Nat × Nat × Bool
  | _, [], st => st
  | i, _ :: rest, (fail, usable, freed) =>
    let rc := addResult i
    if rc < 0 then tlsa_add_loop addResult (i + 1) rest (fail + 1, usable, true)
    else if rc = 0 then tlsa_add_loop addResult (i + 1) rest (fail, usable, freed)
    else tlsa_add_loop addResult (i + 1) rest (fail, usable + 1, freed)

/-- Lines 517-519 of `danetls.c`: `while (SSL_shutdown(ssl) == 0) ;`.
Given the stream of values the library returns, yields the number of
`SSL_shutdown` calls made, or `none` when the stream is exhausted with the
library still returning 0 (the loop would still be running). -/
def shutdown_loop : List Int → Option Nat
  | [] => none
  | r :: rest => if r = 0 then (shutdown_loop rest).map (· + 1) else some 1

/-- Lines 446-522 of `danetls.c`: everything after the TLSA-add loop in one
address iteration — the `MODE_DANE && count_tlsa_usable == 0` abort, the
STARTTLS conversation, `SSL_connect`, and the classification of
`SSL_get_verify_result`, ending with the shutdown loop. -/
def classify_session (auth_mode : AUTH_MODE) (attempt_dane starttls_on : Bool)
    (ssl : SSLSession) (env : AddrEnv) (freed : Bool) (s1 : RunState) :
    RunState × AttemptRecord :=
  if auth_mode == .MODE_DANE && s1.count_tlsa_usable == 0 then
    ({ s1 with count_fail := s1.count_fail + 1 },
     ⟨.noUsableTlsa, attempt_dane, some ssl, freed, none⟩)
  else if starttls_on && !env.starttlsOk then
    ({ s1 with count_fail := s1.count_fail + 1 },
     ⟨.starttlsFail, attempt_dane, some ssl, freed, none⟩)
  else if !env.sslConnectOk then
    ({ s1 with count_fail := s1.count_fail + 1 },
     ⟨.handshakeFail, attempt_dane, some ssl, freed, none⟩)
  else if env.verifyOk then
    ({ s1 with count_success := s1.count_success + 1 },
     ⟨.verifyOk, attempt_dane, some ssl, freed, shutdown_loop env.shutdownResults⟩)
  else
    ({ s1 with count_fail := s1.count_fail + 1 },
     ⟨.verifyFail, attempt_dane, some ssl, freed, shutdown_loop env.shutdownResults⟩)

/-- Lines 382-415 of `danetls.c` as a value: the session policy configured
on a fresh `SSL` handle — `SSL_dane_enable(ssl, hostname)` when
`attempt_dane` (which implicitly requests SNI), otherwise
`SSL_set1_host(ssl, hostname)` plus the explicit
`SSL_set_tlsext_host_name(ssl, hostname)`; in both cases
`SSL_set_hostflags(ssl, X509_CHECK_FLAG_NO_PARTIAL_WILDCARDS)` follows. -/
def session_policy (attempt_dane : Bool) (hostname : String) : SSLSession :=
  { daneEnabled := attempt_dane,
    verifyHost := if attempt_dane then none else some hostname,
    sniName := some hostname,
    strictWildcards := true }

/-- Lines 423-444 of `danetls.c`: the TLSA-add loop runs only under
`attempt_dane`; result is the updated `(count_fail, count_tlsa_usable)`
and whether the `rc < 0` branch freed the session. -/
def tlsa_added (attempt_dane : Bool) (env : AddrEnv)
    (tlsa_rdata_list : List tlsa_rdata) (s : RunState) : Nat × Nat × Bool :=
  if attempt_dane then
    tlsa_add_loop env.tlsaAddResult 0 tlsa_rdata_list
      (s.count_fail, s.count_tlsa_usable, false)
  else (s.count_fail, s.count_tlsa_usable, false)

/-- Lines 345-523 of `danetls.c`: the body of the per-address loop —
socket, connect, `SSL_new`, the DANE/PKIX session-policy binding
(`session_policy`), the TLSA-add loop (`tlsa_added`), and
`classify_session` for the rest. -/
def connect_to_address (auth_mode : AUTH_MODE) (attempt_dane starttls_on : Bool)
    (hostname : String) (tlsa_rdata_list : List tlsa_rdata)
    (env : AddrEnv) (s : RunState) : RunState × AttemptRecord :=
  if !env.socketOk then
    ({ s with count_fail := s.count_fail + 1 },
     ⟨.socketFail, attempt_dane, none, false, none⟩)
  else if !env.connectOk then
    ({ s with count_fail := s.count_fail + 1 },
     ⟨.connectFail, attempt_dane, none, false, none⟩)
  else if !env.sslNewOk then
    ({ s with count_fail := s.count_fail + 1 },
     ⟨.sslNewFail, attempt_dane, none, false, none⟩)
  else if attempt_dane && !env.daneEnableOk then
    ({ s with count_fail := s.count_fail + 1 },
     ⟨.daneEnableFail, attempt_dane, none, false, none⟩)
  else if !attempt_dane && !env.set1HostOk then
    ({ s with count_fail := s.count_fail + 1 },
     ⟨.set1HostFail, attempt_dane, none, false, none⟩)
  else
    classify_session auth_mode attempt_dane starttls_on
      (session_policy attempt_dane hostname) env
      (tlsa_added attempt_dane env tlsa_rdata_list s).2.2
      ⟨s.count_success, (tlsa_added attempt_dane env tlsa_rdata_list s).1,
       (tlsa_added attempt_dane env tlsa_rdata_list s).2.1⟩

/-- The `for (gaip = addresses; ...)` loop of `main`: folds
`connect_to_address` over the resolved addresses, collecting the per-address
trace records. -/
def address_loop (auth_mode : AUTH_MODE) (attempt_dane starttls_on : Bool)
    (hostname : String) (tlsa_rdata_list : List tlsa_rdata) :
    List AddrEnv → RunState → RunState × List AttemptRecord
  | [], s => (s, [])
  | env :: rest, s =>
    let r := connect_to_address auth_mode attempt_dane starttls_on hostname
      tlsa_rdata_list env s
    let r2 := address_loop auth_mode attempt_dane starttls_on hostname
      tlsa_rdata_list rest r.1
    (r2.1, r.2 :: r2.2)

/-- Lines 539-544 of `danetls.c`: the final return-status computation from
the two counters. -/
def classify (count_success count_fail : Nat) : Nat :=
  if 0 < count_success ∧ count_fail = 0 then 0
  else if 0 < count_success ∧ count_fail ≠ 0 then 1
  else 2

/-- Aggregate result of one run of `main`: exit status, the final value of
`attempt_dane`, the TLSA list held at cleanup, the trace of address
attempts, the final counters, and the fact that the `cleanup` label (which
frees the address list, TLSA list and `SSL_CTX`) was passed. -/
structure RunResult where
  exitStatus : Nat
  attempt_dane : Bool
  tlsa_rdata_list : List tlsa_rdata
  attempts : List AttemptRecord
  finalState : RunState
  resourcesReleased : Bool

/-- A run that took one of the `goto cleanup` short circuits before the
address loop: counters still 0, no attempts, exit via the same
classification code. -/
def aborted_run (tl : List tlsa_rdata) (ad : Bool) : RunResult :=
  { exitStatus := classify 0 0,
    attempt_dane := ad,
    tlsa_rdata_list := tl,
    attempts := [],
    finalState := ⟨0, 0, 0⟩,
    resourcesReleased := true }

/-- Lines 216 and 252-253 of `danetls.c`: `tlsa_rdata_list` is initialised
to NULL and `get_tlsa` is called only when the mode is not PKIX-only. -/
def tlsa_queried (auth_mode : AUTH_MODE) (env : RunEnv) : List tlsa_rdata :=
  if auth_mode == .MODE_PKIX then [] else env.tlsaFromDns

/-- The `dane_decision` as `main` instantiates it: on the TLSA list it
actually queried and the global DNSSEC evidence flags. -/
def run_decision (auth_mode : AUTH_MODE) (env : RunEnv) : Bool × Bool :=
  dane_decision auth_mode (!(tlsa_queried auth_mode env).isEmpty)
    env.tlsa_authenticated env.v4_authenticated env.v6_authenticated
    env.dns_bogus_or_indeterminate

/-- `main` of `danetls.c` after option parsing: resolver setup, address and
(mode-dependent) TLSA queries, the bogus bail-out and `attempt_dane`
decision, CA-store loading, `SSL_CTX_dane_enable`, the address loop, and
the final classification at `cleanup`. -/
def run (auth_mode : AUTH_MODE) (starttls_on : Bool) (hostname : String)
    (env : RunEnv) : RunResult :=
  if !env.resolverOk then aborted_run [] false
  else if (run_decision auth_mode env).2 then
    aborted_run (tlsa_queried auth_mode env) (run_decision auth_mode env).1
  else if !env.caLoadOk then
    aborted_run (tlsa_queried auth_mode env) (run_decision auth_mode env).1
  else if !env.ctxDaneEnableOk then
    aborted_run (tlsa_queried auth_mode env) (run_decision auth_mode env).1
  else
    { exitStatus :=
        classify
          (address_loop auth_mode (run_decision auth_mode env).1 starttls_on
            hostname (tlsa_queried auth_mode env) env.addresses
            ⟨0, 0, 0⟩).1.count_success
          (address_loop auth_mode (run_decision auth_mode env).1 starttls_on
            hostname (tlsa_queried auth_mode env) env.addresses
            ⟨0, 0, 0⟩).1.count_fail,
      attempt_dane := (run_decision auth_mode env).1,
      tlsa_rdata_list := tlsa_queried auth_mode env,
      attempts :=
        (address_loop auth_mode (run_decision auth_mode env).1 starttls_on
          hostname (tlsa_queried auth_mode env) env.addresses ⟨0, 0, 0⟩).2,
      finalState :=
        (address_loop auth_mode (run_decision auth_mode env).1 starttls_on
          hostname (tlsa_queried auth_mode env) env.addresses ⟨0, 0, 0⟩).1,
      resourcesReleased := true }

/-- Split a domain name (as a character list) into its dot-separated
labels. -/
def split_labels : List Char → List (List Char)
  | [] => [[]]
  | c :: rest =>
    let r := split_labels rest
    if c = '.' then [] :: r
    else
      match r with
      | [] => [[c]]
      | l :: ls => (c :: l) :: ls

/-- Modelled from the spec: the external TLS library's wildcard label
matching is not part of this repository; the spec requires that with the
no-partial-label-wildcard policy enabled (`strict = true`, i.e.
`X509_CHECK_FLAG_NO_PARTIAL_WILDCARDS`), a peer-name label containing `*`
together with other characters (such as `f*`) matches nothing, while with
the policy off such a label matches by its literal head and tail parts. -/
def label_matches (strict : Bool) (pat host : List Char) : Bool :=
  if pat.contains '*' then
    if strict && pat ≠ ['*'] then false
    else
      let pre := pat.takeWhile (fun c => c ≠ '*')
      let post := (pat.dropWhile (fun c => c ≠ '*')).drop 1
      decide (pre.length + post.length ≤ host.length) &&
        pre.isPrefixOf host && post.isSuffixOf host
  else pat == host

/-- Modelled from the spec: full-hostname matching of a peer certificate
name against the requested name — only the leftmost label of the peer name
may be a wildcard label, the remaining labels must be literally equal. -/
def hostname_matches (strict : Bool) (pat host : String) : Bool :=
  match split_labels pat.data, split_labels host.data with
  | pl :: pls, hl :: hls => label_matches strict pl hl && pls == hls
  | _, _ => false

/-! ### Helper lemmas about the per-address body -/

theorem classify_session_usedDane (m : AUTH_MODE) (ad st : Bool)
    (ssl : SSLSession) (env : AddrEnv) (fr : Bool) (s1 : RunState) :
    (classify_session m ad st ssl env fr s1).2.usedDane = ad := by
  simp only [classify_session]
  repeat' split
  all_goals rfl

theorem classify_session_session (m : AUTH_MODE) (ad st : Bool)
    (ssl : SSLSession) (env : AddrEnv) (fr : Bool) (s1 : RunState) :
    (classify_session m ad st ssl env fr s1).2.session = some ssl := by
  simp only [classify_session]
  repeat' split
  all_goals rfl

theorem classify_session_counts (m : AUTH_MODE) (ad st : Bool)
    (ssl : SSLSession) (env : AddrEnv) (fr : Bool) (s1 : RunState) :
    (classify_session m ad st ssl env fr s1).1.count_success ≤
      s1.count_success + 1 ∧
    s1.count_fail ≤ (classify_session m ad st ssl env fr s1).1.count_fail ∧
    (classify_session m ad st ssl env fr s1).1.count_tlsa_usable =
      s1.count_tlsa_usable := by
  simp only [classify_session]
  repeat' split
  all_goals simp

theorem classify_session_no_usable (m : AUTH_MODE) (ad st : Bool)
    (ssl : SSLSession) (env : AddrEnv) (fr : Bool) (s1 : RunState)
    (h : 0 < s1.count_tlsa_usable) :
    (classify_session m ad st ssl env fr s1).2.outcome ≠ .noUsableTlsa := by
  simp only [classify_session]
  repeat' split
  all_goals simp_all

theorem tlsa_add_loop_mono (f : Nat → Int) :
    ∀ (l : List tlsa_rdata) (i a b : Nat) (fr : Bool),
      a ≤ (tlsa_add_loop f i l (a, b, fr)).1 ∧
      b ≤ (tlsa_add_loop f i l (a, b, fr)).2.1 := by
  intro l
  induction l with
  | nil => intro i a b fr; exact ⟨le_refl a, le_refl b⟩
  | cons x rest ih =>
    intro i a b fr
    simp only [tlsa_add_loop]
    split
    · exact ⟨le_trans (Nat.le_succ a) (ih (i + 1) (a + 1) b true).1,
        (ih (i + 1) (a + 1) b true).2⟩
    · split
      · exact ih (i + 1) a b fr
      · exact ⟨(ih (i + 1) a (b + 1) fr).1,
          le_trans (Nat.le_succ b) (ih (i + 1) a (b + 1) fr).2⟩

theorem tlsa_added_mono (ad : Bool) (env : AddrEnv)
    (tl : List tlsa_rdata) (s : RunState) :
    s.count_fail ≤ (tlsa_added ad env tl s).1 ∧
    s.count_tlsa_usable ≤ (tlsa_added ad env tl s).2.1 := by
  unfold tlsa_added
  split
  · exact tlsa_add_loop_mono env.tlsaAddResult tl 0 s.count_fail
      s.count_tlsa_usable false
  · exact ⟨le_refl _, le_refl _⟩

theorem connect_usedDane (m : AUTH_MODE) (ad st : Bool) (hn : String)
    (tl : List tlsa_rdata) (env : AddrEnv) (s : RunState) :
    (connect_to_address m ad st hn tl env s).2.usedDane = ad := by
  unfold connect_to_address
  repeat' split
  all_goals try rfl
  all_goals apply classify_session_usedDane

theorem connect_session_shape (m : AUTH_MODE) (ad st : Bool) (hn : String)
    (tl : List tlsa_rdata) (env : AddrEnv) (s : RunState) (sess : SSLSession)
    (h : (connect_to_address m ad st hn tl env s).2.session = some sess) :
    sess = session_policy ad hn := by
  unfold connect_to_address at h
  repeat' split at h
  all_goals first
    | (simp only [classify_session_session, Option.some.injEq] at h
       exact h.symm)
    | simp at h

theorem connect_counts (m : AUTH_MODE) (ad st : Bool) (hn : String)
    (tl : List tlsa_rdata) (env : AddrEnv) (s : RunState) :
    (connect_to_address m ad st hn tl env s).1.count_success ≤
      s.count_success + 1 ∧
    s.count_fail ≤ (connect_to_address m ad st hn tl env s).1.count_fail ∧
    s.count_tlsa_usable ≤
      (connect_to_address m ad st hn tl env s).1.count_tlsa_usable := by
  unfold connect_to_address
  repeat' split
  all_goals try dsimp only
  all_goals try omega
  have hm := tlsa_added_mono ad env tl s
  have hc := classify_session_counts m ad st (session_policy ad hn) env
    (tlsa_added ad env tl s).2.2
    ⟨s.count_success, (tlsa_added ad env tl s).1, (tlsa_added ad env tl s).2.1⟩
  dsimp only at hc
  omega

theorem connect_no_usable (m : AUTH_MODE) (ad st : Bool) (hn : String)
    (tl : List tlsa_rdata) (env : AddrEnv) (s : RunState)
    (h : 0 < s.count_tlsa_usable) :
    (connect_to_address m ad st hn tl env s).2.outcome ≠ .noUsableTlsa := by
  unfold connect_to_address
  repeat' split
  all_goals try simp
  apply classify_session_no_usable
  have hm := tlsa_added_mono ad env tl s
  dsimp only
  omega

theorem address_loop_usedDane (m : AUTH_MODE) (ad st : Bool) (hn : String)
    (tl : List tlsa_rdata) :
    ∀ (envs : List AddrEnv) (s : RunState) (a : AttemptRecord),
      a ∈ (address_loop m ad st hn tl envs s).2 → a.usedDane = ad := by
  intro envs
  induction envs with
  | nil => intro s a ha; simp [address_loop] at ha
  | cons e rest ih =>
    intro s a ha
    simp only [address_loop, List.mem_cons] at ha
    rcases ha with h | h
    · subst h; exact connect_usedDane m ad st hn tl e s
    · exact ih _ a h

theorem address_loop_session (m : AUTH_MODE) (ad st : Bool) (hn : String)
    (tl : List tlsa_rdata) :
    ∀ (envs : List AddrEnv) (s : RunState) (a : AttemptRecord),
      a ∈ (address_loop m ad st hn tl envs s).2 →
      ∀ sess : SSLSession, a.session = some sess → sess = session_policy ad hn := by
  intro envs
  induction envs with
  | nil => intro s a ha; simp [address_loop] at ha
  | cons e rest ih =>
    intro s a ha sess hs
    simp only [address_loop, List.mem_cons] at ha
    rcases ha with h | h
    · subst h; exact connect_session_shape m ad st hn tl e s sess hs
    · exact ih _ a h sess hs

theorem address_loop_usable_mono (m : AUTH_MODE) (ad st : Bool) (hn : String)
    (tl : List tlsa_rdata) :
    ∀ (envs : List AddrEnv) (s : RunState),
      s.count_tlsa_usable ≤
        (address_loop m ad st hn tl envs s).1.count_tlsa_usable := by
  intro envs
  induction envs with
  | nil => intro s; exact le_refl _
  | cons e rest ih =>
    intro s
    simp only [address_loop]
    exact le_trans (connect_counts m ad st hn tl e s).2.2 (ih _)

/-! ### Helper lemmas about the run level -/

theorem dane_decision_empty (m : AUTH_MODE) (ta v4 v6 bg : Bool) :
    (dane_decision m false ta v4 v6 bg).1 = false := by
  cases m <;> revert ta v4 v6 bg <;> decide

theorem run_attempt_dane (m : AUTH_MODE) (st : Bool) (hn : String)
    (env : RunEnv) :
    (run m st hn env).attempt_dane =
      (dane_decision m (!(run m st hn env).tlsa_rdata_list.isEmpty)
        env.tlsa_authenticated env.v4_authenticated env.v6_authenticated
        env.dns_bogus_or_indeterminate).1 := by
  unfold run
  repeat' split
  · exact (dane_decision_empty m env.tlsa_authenticated env.v4_authenticated
      env.v6_authenticated env.dns_bogus_or_indeterminate).symm
  all_goals rfl

theorem run_cases (m : AUTH_MODE) (st : Bool) (hn : String) (env : RunEnv) :
    (run m st hn env).attempts = [] ∨
    ((run m st hn env).attempts =
        (address_loop m (run_decision m env).1 st hn (tlsa_queried m env)
          env.addresses ⟨0, 0, 0⟩).2 ∧
     (run m st hn env).attempt_dane = (run_decision m env).1 ∧
     (run m st hn env).finalState =
        (address_loop m (run_decision m env).1 st hn (tlsa_queried m env)
          env.addresses ⟨0, 0, 0⟩).1) := by
  unfold run
  repeat' split
  all_goals simp [aborted_run]

theorem run_exit_classify (m : AUTH_MODE) (st : Bool) (hn : String)
    (env : RunEnv) :
    (run m st hn env).exitStatus =
      classify (run m st hn env).finalState.count_success
        (run m st hn env).finalState.count_fail := by
  unfold run
  repeat' split
  all_goals rfl

theorem dane_decision_dane_empty (ta v4 v6 bg : Bool) :
    (dane_decision .MODE_DANE false ta v4 v6 bg).2 = true := by
  revert ta v4 v6 bg; decide

/-! ### Concrete fixtures used by witnesses and counterexamples -/

/-- An address whose external calls all succeed; every TLSA-add reports
usable; one `SSL_shutdown` call returning 1. -/
def addr_ok : AddrEnv :=
  ⟨true, true, true, true, true, fun _ => 1, true, true, true, [1]⟩

/-- The spec's concrete TLSA record: usage 3 (DANE-EE), selector 1,
matching type 1. -/
def rec1 : tlsa_rdata := ⟨3, 1, 1, [18, 52]⟩

/-- A fully successful run environment: one address, one TLSA record, all
DNSSEC evidence authenticated. -/
def env_ok : RunEnv :=
  ⟨true, [rec1], true, true, true, false, true, true, [addr_ok]⟩

/-- `env_ok` with bogus/indeterminate DNSSEC evidence. -/
def env_bogus : RunEnv := { env_ok with dns_bogus_or_indeterminate := true }

/-- `env_ok` with an empty TLSA record set from DNS. -/
def env_no_tlsa : RunEnv := { env_ok with tlsaFromDns := [] }

/-! ### The claims -/

/-- C1: for every configured authentication mode and every combination of
the four DNSSEC evidence booleans, `attempt_dane` is true iff the mode is
not PKIX-only AND the TLSA record set is non-empty AND TLSA authenticated
AND both address families authenticated AND not bogus/indeterminate; the
decision is computed once, before the address loop, and every address
iteration sees the same value. -/
theorem claim_C1 :
    (∀ (m : AUTH_MODE) (ne ta v4 v6 bg : Bool),
      (dane_decision m ne ta v4 v6 bg).1 = true ↔
        (¬m = .MODE_PKIX ∧ ne = true ∧ ta = true ∧ v4 = true ∧ v6 = true ∧
         bg = false)) ∧
    (∀ (m : AUTH_MODE) (st : Bool) (hn : String) (env : RunEnv),
      (run m st hn env).attempt_dane =
        (dane_decision m (!(run m st hn env).tlsa_rdata_list.isEmpty)
          env.tlsa_authenticated env.v4_authenticated env.v6_authenticated
          env.dns_bogus_or_indeterminate).1 ∧
      ∀ a ∈ (run m st hn env).attempts,
        a.usedDane = (run m st hn env).attempt_dane) := by
  refine ⟨by decide, ?_⟩
  intro m st hn env
  refine ⟨run_attempt_dane m st hn env, ?_⟩
  intro a ha
  rcases run_cases m st hn env with h | ⟨h1, h2, _⟩
  · rw [h] at ha; simp at ha
  · rw [h1] at ha
    rw [h2]
    exact address_loop_usedDane m _ st hn _ env.addresses ⟨0, 0, 0⟩ a ha

/-- C1 witness: in the default mode with fully authenticated evidence the
single address attempt shares the run-level `attempt_dane` value. -/
theorem claim_C1_witness :
    (⟨.verifyOk, true, some ⟨true, none, some "h", true⟩, false,
       some 1⟩ : AttemptRecord).usedDane =
      (run .MODE_BOTH false "h" env_ok).attempt_dane :=
  (claim_C1.2 .MODE_BOTH false "h" env_ok).2 _ (by decide)

/-- C2: the final exit status is a pure function of the two run counters:
some successes and no failures give 0, successes and failures give 1, no
successes give 2 (also for aborted runs, whose counters are still 0). -/
theorem claim_C2 :
    (∀ s f : Nat,
      (0 < s → f = 0 → classify s f = 0) ∧
      (0 < s → 0 < f → classify s f = 1) ∧
      (s = 0 → classify s f = 2)) ∧
    (∀ (m : AUTH_MODE) (st : Bool) (hn : String) (env : RunEnv),
      (run m st hn env).exitStatus =
        classify (run m st hn env).finalState.count_success
          (run m st hn env).finalState.count_fail) := by
  constructor
  · intro s f
    unfold classify
    refine ⟨?_, ?_, ?_⟩ <;> intros <;> split_ifs <;> omega
  · exact run_exit_classify

/-- C2 witness: a run with zero successes (here: zero attempted counters)
is classified as total failure. -/
theorem claim_C2_witness : classify 0 0 = 2 := (claim_C2.1 0 0).2.2 rfl

/-- C4: bogus/indeterminate DNSSEC evidence aborts the whole run before
any connection is attempted, in every mode, with exit status 2, on the
resource-releasing cleanup path. -/
theorem claim_C4 (m : AUTH_MODE) (st : Bool) (hn : String) (env : RunEnv)
    (h : env.dns_bogus_or_indeterminate = true) :
    (run m st hn env).exitStatus = 2 ∧ (run m st hn env).attempts = [] ∧
    (run m st hn env).resourcesReleased = true := by
  have hd : (run_decision m env).2 = true := by
    unfold run_decision dane_decision
    rw [h]
    rfl
  cases hres : env.resolverOk <;>
    simp [run, hd, hres, aborted_run, classify]

/-- C4 witness: PKIX-only mode with bogus evidence still aborts with
status 2 and no attempts. -/
theorem claim_C4_witness :
    (run .MODE_PKIX false "h" env_bogus).exitStatus = 2 ∧
    (run .MODE_PKIX false "h" env_bogus).attempts = [] ∧
    (run .MODE_PKIX false "h" env_bogus).resourcesReleased = true :=
  claim_C4 .MODE_PKIX false "h" env_bogus rfl

/-- C5: DANE-only mode with an empty TLSA record set terminates with exit
status 2 and contacts zero addresses. -/
theorem claim_C5 (st : Bool) (hn : String) (env : RunEnv)
    (h : env.tlsaFromDns = []) :
    (run .MODE_DANE st hn env).exitStatus = 2 ∧
    (run .MODE_DANE st hn env).attempts = [] := by
  have hq : tlsa_queried .MODE_DANE env = [] := by
    unfold tlsa_queried
    simp [h]
  have hd : (run_decision .MODE_DANE env).2 = true := by
    unfold run_decision
    rw [hq]
    exact dane_decision_dane_empty _ _ _ _
  cases hres : env.resolverOk <;>
    simp [run, hd, hres, aborted_run, classify]

/-- C5 witness: the DANE-only abort on the concrete empty-TLSA
environment. -/
theorem claim_C5_witness :
    (run .MODE_DANE false "h" env_no_tlsa).exitStatus = 2 ∧
    (run .MODE_DANE false "h" env_no_tlsa).attempts = [] :=
  claim_C5 false "h" env_no_tlsa rfl

theorem dane_decision_pkix (ne ta v4 v6 bg : Bool) :
    (dane_decision .MODE_PKIX ne ta v4 v6 bg).1 = false := by
  revert ne ta v4 v6 bg; decide

/-- Address environment whose every `SSL_dane_tlsa_add` call returns -1
(error) and whose TLS handshake then fails. -/
def addr_add_fails : AddrEnv :=
  ⟨true, true, true, true, true, fun _ => -1, true, false, true, [1]⟩

/-- Address environment where the first `SSL_dane_tlsa_add` errors (-1),
the remaining ones report usable (1), and peer verification fails. -/
def addr_mixed : AddrEnv :=
  ⟨true, true, true, true, true, fun i => if i = 0 then -1 else 1, true, true,
   false, [1]⟩

/-- Address environment whose every `SSL_dane_tlsa_add` reports the record
unusable (0). -/
def addr_zero_usable : AddrEnv :=
  ⟨true, true, true, true, true, fun _ => 0, true, true, true, [1]⟩

/-- C3 (code bug): when `SSL_dane_tlsa_add` fails (`rc < 0`) the C code
frees the session, closes the socket and increments `count_fail` — but its
`continue` re-enters the inner TLSA-record loop instead of moving to the
next address.  On an address whose two TLSA-add calls both fail, the
iteration increments `count_fail` once per failing record, keeps running on
the freed session, and falls through to the handshake (which here fails,
adding a third increment) instead of aborting the address attempt. -/
theorem claim_C3 :
    (connect_to_address .MODE_BOTH true false "h" [rec1, rec1] addr_add_fails
      ⟨0, 0, 0⟩).1.count_fail = 3 ∧
    (connect_to_address .MODE_BOTH true false "h" [rec1, rec1] addr_add_fails
      ⟨0, 0, 0⟩).2.outcome = .handshakeFail ∧
    (connect_to_address .MODE_BOTH true false "h" [rec1, rec1] addr_add_fails
      ⟨0, 0, 0⟩).2.freedDuringTlsaAdd = true := by
  decide

/-- C6 counterexample: with the library returning 0 twice before 1, the
shutdown loop makes three `SSL_shutdown` calls — more than the "single
retry" (at most two calls) the claim allows. -/
theorem claim_C6_cex :
    shutdown_loop [0, 0, 1] = some 3 ∧ ¬(3 ≤ 2) := by decide

/-- C6 amended: the shutdown call is repeated until the library stops
returning 0; the number of calls is one more than the number of leading
zero results, so it is not bounded by any fixed constant. -/
theorem claim_C6 (k : Nat) (r : Int) (h : r ≠ 0) :
    shutdown_loop (List.replicate k 0 ++ [r]) = some (k + 1) := by
  induction k with
  | zero => simp [shutdown_loop, h]
  | succ n ih => simp [List.replicate, shutdown_loop, ih]

/-- C6 witness: two zero returns followed by 1 yield three calls. -/
theorem claim_C6_witness :
    shutdown_loop (List.replicate 2 (0 : Int) ++ [1]) = some 3 :=
  claim_C6 2 1 (by decide)

/-- C7 counterexample: one address iteration in default mode whose first
TLSA-add errors and whose two remaining TLSA-adds are usable, with a
failing verification: `count_tlsa_usable` grows by 2 and `count_fail`
grows by 2 within the single iteration — each more than the single update
per address the claim allows. -/
theorem claim_C7_cex :
    (connect_to_address .MODE_BOTH true false "h" [rec1, rec1, rec1]
      addr_mixed ⟨0, 0, 0⟩).1.count_tlsa_usable = 2 ∧
    (connect_to_address .MODE_BOTH true false "h" [rec1, rec1, rec1]
      addr_mixed ⟨0, 0, 0⟩).1.count_fail = 2 ∧
    ¬(2 ≤ 1) := by decide

/-- C7 amended: per address iteration, `succeeded` is updated at most
once, while `failed` and `usableTlsaCount` never decrease but may each be
updated several times (once per failing TLSA-add plus once for the final
failure, and once per usable TLSA record, respectively). -/
theorem claim_C7 (m : AUTH_MODE) (ad st : Bool) (hn : String)
    (tl : List tlsa_rdata) (env : AddrEnv) (s : RunState) :
    (connect_to_address m ad st hn tl env s).1.count_success ≤
      s.count_success + 1 ∧
    s.count_fail ≤ (connect_to_address m ad st hn tl env s).1.count_fail ∧
    s.count_tlsa_usable ≤
      (connect_to_address m ad st hn tl env s).1.count_tlsa_usable :=
  connect_counts m ad st hn tl env s

/-- C8: every session bound without DANE gets `SSL_set1_host hostname`
and the no-partial-label-wildcard host flag, under which the peer name
`f*.example.com` does not match the requested `foo.example.com` (while
without the flag it would). -/
theorem claim_C8 (m : AUTH_MODE) (st : Bool) (hn : String)
    (tl : List tlsa_rdata) (env : AddrEnv) (s : RunState) (sess : SSLSession)
    (h : (connect_to_address m false st hn tl env s).2.session = some sess) :
    sess.strictWildcards = true ∧ sess.daneEnabled = false ∧
    sess.verifyHost = some hn ∧
    hostname_matches sess.strictWildcards "f*.example.com"
      "foo.example.com" = false ∧
    hostname_matches false "f*.example.com" "foo.example.com" = true := by
  obtain rfl := connect_session_shape m false st hn tl env s sess h
  refine ⟨rfl, rfl, rfl, ?_, by decide⟩
  show hostname_matches true "f*.example.com" "foo.example.com" = false
  decide

/-- C8 witness: the concrete all-succeeding PKIX-mode attempt yields
exactly this session policy. -/
theorem claim_C8_witness :
    (session_policy false "h").strictWildcards = true ∧
    (session_policy false "h").daneEnabled = false ∧
    (session_policy false "h").verifyHost = some "h" ∧
    hostname_matches (session_policy false "h").strictWildcards
      "f*.example.com" "foo.example.com" = false ∧
    hostname_matches false "f*.example.com" "foo.example.com" = true :=
  claim_C8 .MODE_BOTH false "h" [] addr_ok ⟨0, 0, 0⟩ (session_policy false "h")
    (by decide)

/-- C9: `count_tlsa_usable` is never reset — it only grows, across one
iteration and across the whole loop — and once it is positive no later
address can be aborted by the DANE-only "no usable TLSA records" check. -/
theorem claim_C9 :
    (∀ (m : AUTH_MODE) (ad st : Bool) (hn : String) (tl : List tlsa_rdata)
       (env : AddrEnv) (s : RunState),
      s.count_tlsa_usable ≤
        (connect_to_address m ad st hn tl env s).1.count_tlsa_usable) ∧
    (∀ (m : AUTH_MODE) (ad st : Bool) (hn : String) (tl : List tlsa_rdata)
       (envs : List AddrEnv) (s : RunState),
      s.count_tlsa_usable ≤
        (address_loop m ad st hn tl envs s).1.count_tlsa_usable) ∧
    (∀ (m : AUTH_MODE) (ad st : Bool) (hn : String) (tl : List tlsa_rdata)
       (env : AddrEnv) (s : RunState),
      0 < s.count_tlsa_usable →
        (connect_to_address m ad st hn tl env s).2.outcome ≠
          .noUsableTlsa) := by
  refine ⟨?_, ?_, ?_⟩
  · intro m ad st hn tl env s
    exact (connect_counts m ad st hn tl env s).2.2
  · intro m ad st hn tl envs s
    exact address_loop_usable_mono m ad st hn tl envs s
  · intro m ad st hn tl env s h
    exact connect_no_usable m ad st hn tl env s h

/-- C9 witness: in DANE-only mode with one usable record already counted
on an earlier address, an address whose every TLSA-add reports unusable is
not aborted by the no-usable-records check. -/
theorem claim_C9_witness :
    (connect_to_address .MODE_DANE true false "h" [rec1] addr_zero_usable
      ⟨0, 0, 1⟩).2.outcome ≠ .noUsableTlsa :=
  claim_C9.2.2 .MODE_DANE true false "h" [rec1] addr_zero_usable ⟨0, 0, 1⟩
    (by decide)

/-- C10: in PKIX-only mode the TLSA lookup is skipped, the record set
stays empty, `attempt_dane` stays false, and every session of the run is
bound with the PKIX policy (no DANE, hostname verification set). -/
theorem claim_C10 (st : Bool) (hn : String) (env : RunEnv) :
    (run .MODE_PKIX st hn env).tlsa_rdata_list = [] ∧
    (run .MODE_PKIX st hn env).attempt_dane = false ∧
    ∀ a ∈ (run .MODE_PKIX st hn env).attempts,
      a.usedDane = false ∧
      ∀ sess : SSLSession, a.session = some sess →
        sess.daneEnabled = false ∧ sess.verifyHost = some hn := by
  have hpk : (run_decision .MODE_PKIX env).1 = false := by
    unfold run_decision
    exact dane_decision_pkix _ _ _ _ _
  refine ⟨?_, ?_, ?_⟩
  · unfold run
    repeat' split
    all_goals rfl
  · rw [run_attempt_dane]
    exact dane_decision_pkix _ _ _ _ _
  · intro a ha
    rcases run_cases .MODE_PKIX st hn env with h | ⟨h1, _, _⟩
    · rw [h] at ha; simp at ha
    · rw [h1] at ha
      constructor
      · have hu := address_loop_usedDane .MODE_PKIX _ st hn _ env.addresses
          ⟨0, 0, 0⟩ a ha
        rw [hu, hpk]
      · intro sess hs
        have hsh := address_loop_session .MODE_PKIX _ st hn _ env.addresses
          ⟨0, 0, 0⟩ a ha sess hs
        rw [hpk] at hsh
        subst hsh
        exact ⟨rfl, rfl⟩

/-- C10 witness: the session bound on the concrete PKIX-only run has DANE
disabled and hostname verification set. -/
theorem claim_C10_witness :
    (session_policy false "h").daneEnabled = false ∧
    (session_policy false "h").verifyHost = some "h" :=
  ((claim_C10 false "h" env_ok).2.2
      ⟨.verifyOk, false, some (session_policy false "h"), false, some 1⟩
      (by decide)).2 (session_policy false "h") (by decide)
